import Mathlib

/-!
Verification of the mcp-gateway-k8s authentication gateway.

The development embeds, as executable Lean definitions:
  * the JSON-RPC method classifier and the method-aware auth middleware of
    src/images/notion-mcp-remote/auth/discovery_auth.py;
  * the per-request client injection of
    src/images/notion-mcp-remote/client_patch.py;
  * the Google OAuth callback handler of
    src/images/gcal-mcp-remote/server.py;
  * a TokenStore modelled from the specification (its source file,
    auth/storage.py, is referenced by server.py but is not part of the
    sources analysed here).
-/

/-- A byte string, modelled as a list of natural numbers (byte values). -/
abbrev Bytes := List Nat

/-- A parsed JSON document, as produced by Python json.loads: null, booleans,
numbers (modelled as integers), strings, arrays, and objects. An object is the
association list of its fields; lookups take the last occurrence of a key,
matching the dict json.loads builds (later duplicate keys win). -/
inductive Json where
  | null : Json
  | bool (b : Bool) : Json
  | num (n : Int) : Json
  | str (s : String) : Json
  | arr (items : List Json) : Json
  | obj (fields : List (String × Json)) : Json

/-- Python dict.get on a parsed JSON object: the value of the last field with
the given key, or none when the key is absent. -/
def getField (fields : List (String × Json)) (key : String) : Option Json :=
  fields.foldl (fun acc kv => if kv.1 = key then some kv.2 else acc) none

/-- Python truthiness of a JSON value: None, False, 0, the empty string, the
empty array and the empty object are falsy; everything else is truthy. -/
def Json.truthy : Json → Bool
  | .null => false
  | .bool b => b
  | .num n => n != 0
  | .str s => s != ""
  | .arr items => !items.isEmpty
  | .obj fields => !fields.isEmpty

/-- Python equality between a decoded JSON value and a Python str: true exactly
when the value is that string. (No non-string JSON value compares equal to a
non-empty Python string; the gate only compares against its string allowlist,
so this is the only equality the middleware ever evaluates.) -/
def jsonEqStr : Json → String → Bool
  | .str s, t => s == t
  | _, _ => false

/-- UNAUTHENTICATED_METHODS from discovery_auth.py: the frozenset of JSON-RPC
methods that are allowed through without a bearer token. -/
def UNAUTHENTICATED_METHODS : List String :=
  ["initialize", "notifications/initialized", "tools/list",
   "prompts/list", "resources/list", "ping"]

/-- Python hashability of a decoded JSON value: decoded lists and dicts are
unhashable, so putting one into a set raises TypeError; None, booleans,
numbers and strings are hashable. -/
def Json.hashable : Json → Bool
  | .arr _ => false
  | .obj _ => false
  | _ => true

/-- The contribution of one batch element to the set comprehension on lines
111-115: a non-dict element or a dict with an absent or falsy method value
contributes nothing (ok none); a dict with a truthy hashable method value
contributes that value (ok some); a dict with a truthy unhashable method value
(a list or a dict) raises TypeError when the comprehension inserts it into the
set — the error outcome. The filter tests truthiness first, so a falsy value
is skipped before any hashing. -/
def batchItemMethod : Json → Except Unit (Option Json)
  | .obj fields =>
      (match getField fields "method" with
       | some m =>
           if m.truthy then
             (if m.hashable then .ok (some m) else .error ())
           else .ok none
       | none => .ok none)
  | _ => .ok none

/-- The set comprehension over a batch array, processed element by element in
order: the first truthy unhashable method value raises (error), otherwise the
result is the list of contributed method values. -/
def classifyBatch : List Json → Except Unit (List Json)
  | [] => .ok []
  | item :: rest =>
      match batchItemMethod item with
      | .error _ => .error ()
      | .ok none => classifyBatch rest
      | .ok (some m) => (classifyBatch rest).map (fun ms => m :: ms)

/-- The core of _extract_jsonrpc_methods, applied to the outcome of
json.loads (`none` is a parse failure caught by the except clause).
A dict with a truthy hashable method value yields that one value — Python
line 109 is `return (set of m) if m else set()`, so a falsy m (absent, None,
empty string, 0, False, empty containers) yields the empty set, while a truthy
unhashable m (a list or a dict) makes the set display raise TypeError, which
the except clause on line 116 (JSONDecodeError, KeyError, IndexError) does not
catch: the error outcome models that uncaught exception. A list goes through
the set comprehension; every other top level (and a parse failure) yields the
empty set. A returned Python set is modelled as the list of its elements;
membership is what matters downstream. -/
def classifyParsed : Option Json → Except Unit (List Json)
  | some (.obj fields) =>
      (match getField fields "method" with
       | some m =>
           if m.truthy then
             (if m.hashable then .ok [m] else .error ())
           else .ok []
       | none => .ok [])
  | some (.arr items) => classifyBatch items
  | _ => .ok []

theorem batchItemMethod_ok_some_iff (item m : Json) :
    batchItemMethod item = .ok (some m) ↔
      ∃ fields, item = .obj fields ∧ getField fields "method" = some m ∧
        m.truthy = true ∧ m.hashable = true := by
  cases item with
  | obj fields =>
      simp only [batchItemMethod]
      cases hg : getField fields "method" with
      | none => simp [hg]
      | some m0 =>
          change (if m0.truthy = true then
              (if m0.hashable = true then Except.ok (some m0) else .error ())
            else .ok none) = .ok (some m) ↔ _
          by_cases ht : m0.truthy = true
          · rw [if_pos ht]
            by_cases hh : m0.hashable = true
            · rw [if_pos hh]
              constructor
              · intro hs
                obtain rfl : m0 = m := Option.some.inj (Except.ok.inj hs)
                exact ⟨fields, rfl, hg, ht, hh⟩
              · rintro ⟨f2, hf2, hg2, _, _⟩
                obtain rfl : fields = f2 := by injection hf2
                rw [hg] at hg2
                obtain rfl : m0 = m := by injection hg2
                rfl
            · rw [if_neg hh]
              constructor
              · intro hs
                exact absurd hs (by simp)
              · rintro ⟨f2, hf2, hg2, _, hh2⟩
                obtain rfl : fields = f2 := by injection hf2
                rw [hg] at hg2
                obtain rfl : m0 = m := by injection hg2
                exact absurd hh2 hh
          · rw [if_neg ht]
            constructor
            · intro hs
              exact absurd hs (by simp)
            · rintro ⟨f2, hf2, hg2, ht2, _⟩
              obtain rfl : fields = f2 := by injection hf2
              rw [hg] at hg2
              obtain rfl : m0 = m := by injection hg2
              exact absurd ht2 ht
  | null => simp [batchItemMethod]
  | bool b => simp [batchItemMethod]
  | num n => simp [batchItemMethod]
  | str s => simp [batchItemMethod]
  | arr xs => simp [batchItemMethod]

theorem batchItemMethod_error_iff (item : Json) :
    batchItemMethod item = .error () ↔
      ∃ fields m, item = .obj fields ∧ getField fields "method" = some m ∧
        m.truthy = true ∧ m.hashable = false := by
  cases item with
  | obj fields =>
      simp only [batchItemMethod]
      cases hg : getField fields "method" with
      | none => simp [hg]
      | some m0 =>
          change (if m0.truthy = true then
              (if m0.hashable = true then Except.ok (some m0) else .error ())
            else .ok none) = .error () ↔ _
          by_cases ht : m0.truthy = true
          · rw [if_pos ht]
            by_cases hh : m0.hashable = true
            · rw [if_pos hh]
              constructor
              · intro hs
                exact absurd hs (by simp)
              · rintro ⟨f2, m2, hf2, hg2, _, hh2⟩
                obtain rfl : fields = f2 := by injection hf2
                rw [hg] at hg2
                obtain rfl : m0 = m2 := by injection hg2
                rw [hh2] at hh
                exact absurd hh (by decide)
            · rw [if_neg hh]
              constructor
              · intro _
                exact ⟨fields, m0, rfl, hg, ht, by simpa using hh⟩
              · intro _
                rfl
          · rw [if_neg ht]
            constructor
            · intro hs
              exact absurd hs (by simp)
            · rintro ⟨f2, m2, hf2, hg2, ht2, _⟩
              obtain rfl : fields = f2 := by injection hf2
              rw [hg] at hg2
              obtain rfl : m0 = m2 := by injection hg2
              exact absurd ht2 ht
  | null => simp [batchItemMethod]
  | bool b => simp [batchItemMethod]
  | num n => simp [batchItemMethod]
  | str s => simp [batchItemMethod]
  | arr xs => simp [batchItemMethod]

theorem classifyBatch_ok_mem (items : List Json) :
    ∀ ms, classifyBatch items = .ok ms →
      ∀ m, (m ∈ ms ↔ ∃ fields, Json.obj fields ∈ items ∧
        getField fields "method" = some m ∧ m.truthy = true) := by
  induction items with
  | nil =>
      intro ms hok m
      simp only [classifyBatch] at hok
      obtain rfl : ([] : List Json) = ms := Except.ok.inj hok
      simp
  | cons item rest ih =>
      intro ms hok m
      cases hbim : batchItemMethod item with
      | error u =>
          simp only [classifyBatch, hbim] at hok
          exact Except.noConfusion hok
      | ok co =>
          cases co with
          | none =>
              simp only [classifyBatch, hbim] at hok
              rw [ih ms hok m]
              constructor
              · rintro ⟨fields, hmem, hg, ht⟩
                exact ⟨fields, List.mem_cons_of_mem _ hmem, hg, ht⟩
              · rintro ⟨fields, hmem, hg, ht⟩
                rcases List.mem_cons.1 hmem with heq | hmem2
                · exfalso
                  by_cases hh : m.hashable = true
                  · have hx := (batchItemMethod_ok_some_iff item m).2
                      ⟨fields, heq.symm, hg, ht, hh⟩
                    rw [hbim] at hx
                    simp at hx
                  · have hx := (batchItemMethod_error_iff item).2
                      ⟨fields, m, heq.symm, hg, ht, by simpa using hh⟩
                    rw [hbim] at hx
                    exact Except.noConfusion hx
                · exact ⟨fields, hmem2, hg, ht⟩
          | some m0 =>
              simp only [classifyBatch, hbim] at hok
              cases hrest : classifyBatch rest with
              | error u2 =>
                  rw [hrest] at hok
                  exact Except.noConfusion hok
              | ok ms0 =>
                  rw [hrest] at hok
                  obtain rfl : m0 :: ms0 = ms := by
                    simpa [Except.map] using hok
                  obtain ⟨fields0, hitem0, hg0, ht0, _⟩ :=
                    (batchItemMethod_ok_some_iff item m0).1 hbim
                  subst hitem0
                  rw [List.mem_cons]
                  constructor
                  · rintro (rfl | hmem)
                    · exact ⟨fields0, List.mem_cons_self _ _, hg0, ht0⟩
                    · obtain ⟨f, hm, hg, ht⟩ := (ih ms0 hrest m).1 hmem
                      exact ⟨f, List.mem_cons_of_mem _ hm, hg, ht⟩
                  · rintro ⟨f, hm, hg, ht⟩
                    rcases List.mem_cons.1 hm with heq | hm2
                    · obtain rfl : f = fields0 := by injection heq
                      rw [hg0] at hg
                      exact Or.inl (Option.some.inj hg).symm
                    · exact Or.inr ((ih ms0 hrest m).2 ⟨f, hm2, hg, ht⟩)

/-- _extract_jsonrpc_methods from discovery_auth.py: json.loads the body (the
parse itself is abstracted as a function from bytes to an optional document),
then classify; ok is a returned set, error the uncaught TypeError. -/
def extract_jsonrpc_methods (parse : Bytes → Option Json) (body : Bytes) :
    Except Unit (List Json) :=
  classifyParsed (parse body)

example : classifyParsed (some (.obj [("method", .str "tools/list")]))
  = .ok [.str "tools/list"] := rfl
example : classifyParsed (some (.obj [("method", .str "")])) = .ok [] := rfl
example : classifyParsed (some (.obj [("method", .arr [.str "tools/list"])]))
  = .error () := rfl
example : classifyParsed (some (.arr [.obj [("method", .str "a")], .num 3,
  .obj [("method", .null)]])) = .ok [.str "a"] := rfl
example : classifyParsed (some (.arr [.obj [("method", .str "a")],
  .obj [("method", .obj [("x", .num 1)])]])) = .error () := rfl

/-- An ASGI receive event on an http connection: an http.request frame carrying
a body chunk and a more_body flag, or an http.disconnect notice. A missing body
key (defaulted to the empty byte string by `message.get("body", b"")`) is the
empty chunk. -/
inductive AsgiMessage where
  | request (body : Bytes) (more : Bool) : AsgiMessage
  | disconnect : AsgiMessage
deriving DecidableEq

/-- The body-buffering loop of MethodAwareAuthMiddleware.__call__ (lines
56-72), run over the sequence of events the transport will deliver. The loop
calls receive until an http.request frame with more_body false arrives,
appending every http.request body on the way; an http.disconnect message
matches neither branch and is skipped, after which the loop calls receive
again. The result is the joined body together with the events not yet
consumed; `none` means no terminal frame occurs in the stream, so the loop
never completes (with a transport that keeps answering http.disconnect after
the client is gone, it spins forever). -/
def drainBody : List AsgiMessage → Option (Bytes × List AsgiMessage)
  | [] => none
  | .request b true :: rest => (drainBody rest).map (fun p => (b ++ p.1, p.2))
  | .request b false :: rest => some (b, rest)
  | .disconnect :: rest => drainBody rest

/-- The two downstream handlers: self.app (bypass, no auth) and
self.auth_middleware (bearer-token enforcement). -/
inductive Handler where
  | bypass : Handler
  | enforce : Handler
deriving DecidableEq

/-- What the middleware did with a request: invoked a handler, delivering to
it the given stream of receive events; got stuck draining a body whose
terminal frame never arrives; or let the uncaught TypeError of
_extract_jsonrpc_methods (line 75) propagate out of __call__, so that neither
handler is invoked and the server sees the exception. -/
inductive GateOutcome where
  | handled (h : Handler) (delivered : List AsgiMessage) : GateOutcome
  | stuck : GateOutcome
  | raised : GateOutcome
deriving DecidableEq

/-- The bypass test of line 92:
`if rpc_methods and rpc_methods.issubset(UNAUTHENTICATED_METHODS)`.
A Python set is truthy iff non-empty, and issubset against a frozenset of
strings holds iff every element equals one of the strings. -/
def bypassAllowed (methods : List Json) : Bool :=
  !methods.isEmpty &&
    methods.all (fun m => UNAUTHENTICATED_METHODS.any (fun u => jsonEqStr m u))

/-- MethodAwareAuthMiddleware.__call__ (discovery_auth.py lines 44-96).
Non-http scopes and non-POST methods (scope.get("method", "GET")) go straight
to the auth middleware with the original receive stream. POST requests have
their body drained, then classified on line 75 — which either returns a set
or raises the uncaught TypeError, which propagates out of __call__ before any
handler is chosen — and replayed to the chosen handler: replay yields one
http.request frame holding the full body with more_body false and then falls
through to the original receive (the unconsumed events). -/
def MethodAwareAuthMiddleware_call (parse : Bytes → Option Json)
    (scopeType : String) (httpMethod : Option String)
    (events : List AsgiMessage) : GateOutcome :=
  if scopeType ≠ "http" then .handled .enforce events
  else if httpMethod.getD "GET" ≠ "POST" then .handled .enforce events
  else
    match drainBody events with
    | none => .stuck
    | some (fullBody, rest) =>
        match extract_jsonrpc_methods parse fullBody with
        | .error _ => .raised
        | .ok methods =>
            if bypassAllowed methods then
              .handled .bypass (.request fullBody false :: rest)
            else
              .handled .enforce (.request fullBody false :: rest)

/-- The handler an outcome invoked, if any. -/
def GateOutcome.chosenHandler : GateOutcome → Option Handler
  | .handled h _ => some h
  | .stuck => none
  | .raised => none

theorem gate_chosenHandler (parse : Bytes → Option Json) (events : List AsgiMessage)
    (fullBody : Bytes) (rest : List AsgiMessage) (ms : List Json)
    (hdrain : drainBody events = some (fullBody, rest))
    (hok : extract_jsonrpc_methods parse fullBody = .ok ms) :
    MethodAwareAuthMiddleware_call parse "http" (some "POST") events =
      .handled (if bypassAllowed ms then Handler.bypass else Handler.enforce)
        (.request fullBody false :: rest) := by
  by_cases hb : bypassAllowed ms = true <;>
    simp [MethodAwareAuthMiddleware_call, hdrain, hok, hb]

/-- C7: any http request whose method is not POST (scope.get("method", "GET")
defaulting to GET) is handed to the auth-enforcing middleware with the
original, untouched receive stream: no buffering, no classification, never a
bypass. -/
theorem non_post_always_enforced (parse : Bytes → Option Json)
    (httpMethod : Option String) (events : List AsgiMessage)
    (h : httpMethod.getD "GET" ≠ "POST") :
    MethodAwareAuthMiddleware_call parse "http" httpMethod events
      = .handled .enforce events := by
  simp [MethodAwareAuthMiddleware_call, h]

/-- Witness for non_post_always_enforced: a DELETE request with a pending body
frame is passed through to the auth middleware unchanged. -/
theorem non_post_always_enforced_witness :
    MethodAwareAuthMiddleware_call (fun _ => none) "http" (some "DELETE")
        [.request [1] true]
      = .handled .enforce [.request [1] true] :=
  non_post_always_enforced (fun _ => none) (some "DELETE")
    [.request [1] true] (by decide)

/-- C5 (divergence witness): the buffering loop treats http.disconnect as a
no-op — it neither terminates the loop nor propagates the disconnect, it just
calls receive again — so a stream in which the client disconnects before the
terminal frame leaves the middleware stuck in its drain loop: the disconnect
is swallowed and, within the stream, neither downstream handler is ever
invoked. -/
theorem disconnect_swallowed_never_handled :
    (∀ events, drainBody (.disconnect :: events) = drainBody events) ∧
    MethodAwareAuthMiddleware_call (fun _ => none) "http" (some "POST")
        [.request [104, 105] true, .disconnect, .disconnect] = .stuck ∧
    (MethodAwareAuthMiddleware_call (fun _ => none) "http" (some "POST")
        [.request [104, 105] true, .disconnect, .disconnect]).chosenHandler
      = none := by
  refine ⟨fun events => rfl, ?_, ?_⟩ <;>
    simp [MethodAwareAuthMiddleware_call, drainBody, GateOutcome.chosenHandler]

/-- C10: a parsed object whose method value is falsy (empty string, null, 0,
false, empty container) classifies to the empty set and the POST is routed to
the auth-enforcing handler; likewise no falsy value ever appears in the
classification of a batch array. -/
theorem falsy_method_fails_closed (parse : Bytes → Option Json) (body : Bytes)
    (fields : List (String × Json)) (m : Json)
    (hparse : parse body = some (.obj fields))
    (hget : getField fields "method" = some m)
    (hfalsy : m.truthy = false) :
    extract_jsonrpc_methods parse body = .ok [] ∧
    MethodAwareAuthMiddleware_call parse "http" (some "POST") [.request body false]
      = .handled .enforce [.request body false] ∧
    ∀ (items : List Json) (ms : List Json) (m2 : Json),
      classifyParsed (some (.arr items)) = .ok ms → m2.truthy = false →
        m2 ∉ ms := by
  have hext : extract_jsonrpc_methods parse body = .ok [] := by
    simp [extract_jsonrpc_methods, hparse, classifyParsed, hget, hfalsy]
  refine ⟨hext, ?_, ?_⟩
  · have hch := gate_chosenHandler parse [.request body false] body [] [] rfl hext
    rw [hch]
    simp [bypassAllowed]
  · intro items ms m2 hok hm2 hmem
    obtain ⟨_, _, _, ht⟩ :=
      (classifyBatch_ok_mem items ms hok m2).1 hmem
    rw [ht] at hm2
    exact absurd hm2 (by decide)

/-- Witness for falsy_method_fails_closed: a body parsing to an object whose
method is the empty string classifies to the empty set and is routed to the
auth-enforcing handler. -/
theorem falsy_method_fails_closed_witness :
    extract_jsonrpc_methods (fun _ => some (.obj [("method", .str "")])) []
      = .ok [] ∧
    MethodAwareAuthMiddleware_call (fun _ => some (.obj [("method", .str "")]))
        "http" (some "POST") [.request [] false]
      = .handled .enforce [.request [] false] :=
  ⟨(falsy_method_fails_closed (fun _ => some (.obj [("method", .str "")])) []
      [("method", .str "")] (.str "") rfl rfl rfl).1,
   (falsy_method_fails_closed (fun _ => some (.obj [("method", .str "")])) []
      [("method", .str "")] (.str "") rfl rfl rfl).2.1⟩

/-- The per-request client of client_patch.py. NotionClient(api_key=...) is
identified by the api key it is constructed from. -/
structure NotionClient where
  api_key : String
deriving DecidableEq

/-- patched_get_client from client_patch.py, as a function of the value held
by the _request_client ContextVar in the calling execution context (default
None): None raises a RuntimeError, a bound client is returned. -/
def patched_get_client (slot : Option NotionClient) : Except String NotionClient :=
  match slot with
  | none => .error "No NotionClient set for this request — is OAuth configured?"
  | some client => .ok client

/-- set_client_for_request from client_patch.py, as a transformer of the
_request_client slot of the calling execution context: it unconditionally
overwrites the slot with a fresh client built from the api key. It keeps no
reset token and the module has no operation that ever clears the slot. -/
def set_client_for_request (api_key : String) (_slot : Option NotionClient) :
    Option NotionClient :=
  some { api_key := api_key }

/-- C6: the current-client accessor fails immediately with the descriptive
RuntimeError when no client is bound in the current context, and returns
exactly the bound client when one is. -/
theorem patched_get_client_spec :
    patched_get_client none
      = .error "No NotionClient set for this request — is OAuth configured?" ∧
    ∀ client, patched_get_client (some client) = .ok client :=
  ⟨rfl, fun _ => rfl⟩

/-- C9 (divergence witness): set_client_for_request installs the client by a
plain ContextVar.set and nothing in the module ever resets the slot, so after
a request binds a client the binding survives in its execution context; in
particular a later read in the same context (which is shared with other
requests of the session once server.py sets stateless_http = False) still
observes the client bound by the first request. -/
theorem set_client_never_released :
    (∀ prior api_key, set_client_for_request api_key prior
        = some { api_key := api_key }) ∧
    patched_get_client (set_client_for_request "alice-upstream-key" none)
      = .ok { api_key := "alice-upstream-key" } :=
  ⟨fun _ _ => rfl, rfl⟩

/-- The possible outcomes of `await provider.exchange_google_code(code, state)`
in server.py (the provider itself lives in gcal_mcp_remote.auth.provider): a
redirect url on success, a ValueError with a message, or any other exception. -/
inductive ExchangeOutcome where
  | success (redirectUrl : String) : ExchangeOutcome
  | valueError (msg : String) : ExchangeOutcome
  | unexpectedError : ExchangeOutcome
deriving DecidableEq

/-- An HTTP response of the callback handler: a JSONResponse with a status,
an error code and a detail field, or a RedirectResponse. -/
inductive CallbackResponse where
  | jsonError (status : Nat) (error : String) (detail : String) : CallbackResponse
  | redirect (status : Nat) (url : String) : CallbackResponse
deriving DecidableEq

/-- Python truthiness of an optional query parameter: absent and empty strings
are falsy. -/
def optTruthy : Option String → Bool
  | none => false
  | some s => s != ""

/-- google_oauth_callback from gcal-mcp-remote/server.py (lines 118-154), as a
function of the three query parameters and of the outcome of the code
exchange. A truthy error parameter yields 400 google_oauth_error echoing the
error; a falsy code or state yields 400 missing_params; otherwise the exchange
runs: success redirects 302 to the returned url, a ValueError yields 400
callback_failed with the exception text as detail (the same text is logged),
and any other exception yields the generic 500 internal_error body. -/
def google_oauth_callback (code state error : Option String)
    (exchange : ExchangeOutcome) : CallbackResponse :=
  if optTruthy error then
    .jsonError 400 "google_oauth_error" (error.getD "")
  else if !optTruthy code || !optTruthy state then
    .jsonError 400 "missing_params" "code and state are required"
  else
    match exchange with
    | .success url => .redirect 302 url
    | .valueError msg => .jsonError 400 "callback_failed" msg
    | .unexpectedError => .jsonError 500 "internal_error" "An internal error occurred"

/-- C4 counterexample: on error=access_denied the handler responds 400 with
error code google_oauth_error, not the upstream_oauth_error body the claim
names; and on a ValueError during the exchange the exception text itself is
echoed to the client as the detail field. -/
theorem google_oauth_callback_counterexample :
    google_oauth_callback none none (some "access_denied") .unexpectedError
      = .jsonError 400 "google_oauth_error" "access_denied" ∧
    "google_oauth_error" ≠ "upstream_oauth_error" ∧
    google_oauth_callback (some "c") (some "s") none
        (.valueError "google rejected code: raw detail")
      = .jsonError 400 "callback_failed" "google rejected code: raw detail" :=
  ⟨rfl, by decide, rfl⟩

/-- C4 (amended): the callback maps inputs to responses as: a (truthy) error
parameter yields 400 with error code google_oauth_error and the error as
detail; a missing (or empty) code or state yields 400 missing_params; a
ValueError during the exchange yields 400 callback_failed whose detail is the
exception message (the handler both logs and echoes that message); any other
exchange failure yields the generic 500 internal_error body; success yields a
302 redirect to the url the exchange returned. -/
theorem google_oauth_callback_spec (code state error : Option String)
    (exchange : ExchangeOutcome) :
    (optTruthy error = true →
      google_oauth_callback code state error exchange
        = .jsonError 400 "google_oauth_error" (error.getD "")) ∧
    (optTruthy error = false → (optTruthy code = false ∨ optTruthy state = false) →
      google_oauth_callback code state error exchange
        = .jsonError 400 "missing_params" "code and state are required") ∧
    (optTruthy error = false → optTruthy code = true → optTruthy state = true →
      ((∀ url, exchange = .success url →
          google_oauth_callback code state error exchange = .redirect 302 url) ∧
       (∀ msg, exchange = .valueError msg →
          google_oauth_callback code state error exchange
            = .jsonError 400 "callback_failed" msg) ∧
       (exchange = .unexpectedError →
          google_oauth_callback code state error exchange
            = .jsonError 500 "internal_error" "An internal error occurred"))) := by
  refine ⟨?_, ?_, ?_⟩
  · intro herr
    simp [google_oauth_callback, herr]
  · intro herr hmiss
    rcases hmiss with hc | hs
    · simp [google_oauth_callback, herr, hc]
    · simp [google_oauth_callback, herr, hs]
  · intro herr hc hs
    refine ⟨?_, ?_, ?_⟩
    · rintro url rfl
      simp [google_oauth_callback, herr, hc, hs]
    · rintro msg rfl
      simp [google_oauth_callback, herr, hc, hs]
    · rintro rfl
      simp [google_oauth_callback, herr, hc, hs]

/-- Witness for google_oauth_callback_spec: the denial scenario of the spec
(error=access_denied gives the 400 body) and the success scenario (valid code
and state with a successful exchange give the 302 redirect). -/
theorem google_oauth_callback_spec_witness :
    google_oauth_callback none none (some "access_denied") .unexpectedError
      = .jsonError 400 "google_oauth_error" "access_denied" ∧
    google_oauth_callback (some "c") (some "s") none (.success "https://client/cb")
      = .redirect 302 "https://client/cb" :=
  ⟨(google_oauth_callback_spec none none (some "access_denied")
      .unexpectedError).1 rfl,
   ((google_oauth_callback_spec (some "c") (some "s") none
      (.success "https://client/cb")).2.2 rfl rfl rfl).1 "https://client/cb" rfl⟩

/-- Modelled from the spec: the Upstream Credential Record of section 3 of the
design (provider identity, refresh token, granted scopes, last-validated
timestamp). Its source, gcal_mcp_remote/auth/storage.py, is imported by
server.py but is not among the analysed sources. -/
structure UpstreamCredentialRecord where
  provider : String
  refreshToken : String
  scopes : List String
  lastValidated : Nat
deriving DecidableEq

/-- An injective encoding of a byte sequence into a natural number (injective
between sequences of equal length, which is all tamper analysis needs). -/
def encodePayload : Bytes → Nat
  | [] => 0
  | b :: rest => Nat.pair b (encodePayload rest)

theorem encodePayload_inj (xs ys : Bytes) (hlen : xs.length = ys.length)
    (henc : encodePayload xs = encodePayload ys) : xs = ys := by
  induction xs generalizing ys with
  | nil => cases ys with
      | nil => rfl
      | cons y ys => simp at hlen
  | cons x xs ih =>
      cases ys with
      | nil => simp at hlen
      | cons y ys =>
          simp only [encodePayload, Nat.pair_eq_pair] at henc
          simp only [List.length_cons, Nat.succ.injEq] at hlen
          rw [henc.1, ih ys hlen henc.2]

/-- Modelled from the spec: the keyed signature over a token payload
(section 6: verification is keyed by a deployment-wide secret, and bit-for-bit
tampering must fail verification deterministically). The signature is an
idealised deterministic tag, injective in the payload for a fixed secret. -/
def tagOf (secret : Nat) (payload : Bytes) : Nat :=
  Nat.pair secret (encodePayload payload)

/-- Modelled from the spec: TokenStore (section 4.5) — a deployment-wide
secret plus the mapping from subjects to their upstream credential records. -/
structure TokenStore where
  secret : Nat
  records : List (Nat × UpstreamCredentialRecord)

/-- Modelled from the spec: issue(subject, upstreamCredential) -> SessionToken.
Persists the record for the subject (the newest record shadows any older one,
keeping one live record per subject) and mints the signed token: the payload
naming the subject followed by the keyed tag over that payload. -/
def TokenStore.issue (st : TokenStore) (subject : Nat)
    (cred : UpstreamCredentialRecord) : TokenStore × Bytes :=
  ({ st with records := (subject, cred) :: st.records },
   [subject, tagOf st.secret [subject]])

/-- The three distinguishable outcomes of resolve (section 4.5): the record,
a cryptographic verification failure (tampered/forged), or a verified token
whose record is unknown or revoked. -/
inductive ResolveResult where
  | ok (cred : UpstreamCredentialRecord) : ResolveResult
  | verificationFailure : ResolveResult
  | notFound : ResolveResult
deriving DecidableEq

/-- Modelled from the spec: resolve(SessionToken) -> record, VerificationFailure
or NotFound. A token whose tag does not verify against the payload (or that is
not even shaped like a token) is a verification failure; a verified token
resolves through the record store, reporting notFound when the subject has no
record. -/
def TokenStore.resolve (st : TokenStore) (token : Bytes) : ResolveResult :=
  match token with
  | [subject, tag] =>
      if tag = tagOf st.secret [subject] then
        match st.records.lookup subject with
        | some cred => .ok cred
        | none => .notFound
      else .verificationFailure
  | _ => .verificationFailure

/-- C8: resolving the token just issued for a subject returns exactly the
record that was issued, and every single-byte modification of that token
resolves to a verification failure — never to notFound. -/
theorem tokenstore_roundtrip_and_tamper (st : TokenStore) (subject : Nat)
    (cred : UpstreamCredentialRecord) (i b : Nat)
    (hi : i < ((st.issue subject cred).2).length)
    (hb : b ≠ ((st.issue subject cred).2).get ⟨i, hi⟩) :
    ((st.issue subject cred).1).resolve ((st.issue subject cred).2) = .ok cred ∧
    ((st.issue subject cred).1).resolve (((st.issue subject cred).2).set i b)
      = .verificationFailure ∧
    ((st.issue subject cred).1).resolve (((st.issue subject cred).2).set i b)
      ≠ .notFound := by
  refine ⟨?_, ?_, ?_⟩
  · simp [TokenStore.issue, TokenStore.resolve, List.lookup]
  · match i, hi, hb with
    | 0, _, hb =>
        have hbs : b ≠ subject := hb
        simp only [TokenStore.issue, TokenStore.resolve, List.set]
        rw [if_neg]
        intro h
        rw [tagOf, tagOf, Nat.pair_eq_pair] at h
        have hl := encodePayload_inj [b] [subject] rfl h.2.symm
        injection hl with hb2
        exact hbs hb2
    | 1, _, hb =>
        have hbt : b ≠ tagOf st.secret [subject] := hb
        simp only [TokenStore.issue, TokenStore.resolve, List.set]
        rw [if_neg hbt]
    | n + 2, hi, _ => exact absurd hi (by simp [TokenStore.issue])
  · match i, hi, hb with
    | 0, _, hb =>
        have hbs : b ≠ subject := hb
        simp only [TokenStore.issue, TokenStore.resolve, List.set]
        rw [if_neg]
        · simp
        intro h
        rw [tagOf, tagOf, Nat.pair_eq_pair] at h
        have hl := encodePayload_inj [b] [subject] rfl h.2.symm
        injection hl with hb2
        exact hbs hb2
    | 1, _, hb =>
        have hbt : b ≠ tagOf st.secret [subject] := hb
        simp only [TokenStore.issue, TokenStore.resolve, List.set]
        rw [if_neg hbt]
        simp
    | n + 2, hi, _ => exact absurd hi (by simp [TokenStore.issue])

/-- Witness for tokenstore_roundtrip_and_tamper: a concrete store, subject and
record round-trip, and zeroing the tag byte of the issued token yields a
verification failure. -/
theorem tokenstore_roundtrip_and_tamper_witness :
    ((TokenStore.mk 42 []).issue 7 ⟨"google", "rt0", ["calendar"], 5⟩).1.resolve
        (((TokenStore.mk 42 []).issue 7 ⟨"google", "rt0", ["calendar"], 5⟩).2)
      = .ok ⟨"google", "rt0", ["calendar"], 5⟩ ∧
    ((TokenStore.mk 42 []).issue 7 ⟨"google", "rt0", ["calendar"], 5⟩).1.resolve
        ((((TokenStore.mk 42 []).issue 7 ⟨"google", "rt0", ["calendar"], 5⟩).2).set 1 0)
      = .verificationFailure :=
  ⟨(tokenstore_roundtrip_and_tamper (TokenStore.mk 42 []) 7
      ⟨"google", "rt0", ["calendar"], 5⟩ 1 0 (by decide) (by decide)).1,
   (tokenstore_roundtrip_and_tamper (TokenStore.mk 42 []) 7
      ⟨"google", "rt0", ["calendar"], 5⟩ 1 0 (by decide) (by decide)).2.1⟩
